import Mathlib

/-!
Verification of the SecureStack security-header middleware
(`securityHeaders`, `rateLimitHeaders` and the Hono adapter with
`buildConfig`).  The JavaScript source is shallowly embedded: the
response-header store is an association list with Node-style
case-insensitive names, and each middleware is modelled as a function
from a resolved configuration and the current response-header state to
the new state together with a trace of the effects it performed
(`setHeader` calls and the invocation of the `next` handler).
-/

namespace SecureStack

/-- Response headers as an ordered association list of name/value pairs,
mirroring the Node outgoing-header object (one entry per name, insertion
order preserved). -/
abbrev Headers := List (String × String)

/-- ASCII lowercasing of a header name, character by character (Node
compares outgoing header names case-insensitively). -/
def lowerName (s : String) : String :=
  String.mk (s.data.map Char.toLower)

/-- First entry whose name matches case-insensitively, if any. -/
def firstMatch : Headers → String → Option (String × String)
  | [], _ => none
  | p :: rest, n =>
      if lowerName p.1 = lowerName n then some p else firstMatch rest n

/-- Node `getHeader`: case-insensitive lookup of a response header. -/
def getHeader (h : Headers) (n : String) : Option String :=
  (firstMatch h n).map Prod.snd

/-- Node `setHeader`: overwrite the (case-insensitively) matching entry
in place, or append a fresh entry at the end. -/
def setHeader : Headers → String → String → Headers
  | [], n, v => [(n, v)]
  | p :: rest, n, v =>
      if lowerName p.1 = lowerName n then (n, v) :: rest
      else p :: setHeader rest n v

/-- One observable action of a middleware: a `res.setHeader(name, value)`
call, or the invocation of the `next` handler. -/
inductive Effect where
  | setHdr : String → String → Effect
  | callNext : Effect
deriving DecidableEq, Repr

/-- Replay the `setHeader` calls of a trace over a header state. -/
def runEffects : Headers → List Effect → Headers
  | h, [] => h
  | h, Effect.setHdr n v :: es => runEffects (setHeader h n v) es
  | h, Effect.callNext :: es => runEffects h es

/-- Names of the headers written by a trace, in order. -/
def rawNames : List Effect → List String
  | [] => []
  | Effect.setHdr n _ :: es => n :: rawNames es
  | Effect.callNext :: es => rawNames es

/-- Value written for a header name by a trace (first write), if any. -/
def emittedValue : List Effect → String → Option String
  | [], _ => none
  | Effect.setHdr n v :: es, name =>
      if n = name then some v else emittedValue es name
  | Effect.callNext :: es, name => emittedValue es name

/-- Number of `next` invocations recorded in a trace. -/
def nextCount : List Effect → Nat
  | [] => 0
  | Effect.setHdr _ _ :: es => nextCount es
  | Effect.callNext :: es => nextCount es + 1

/-- The JavaScript `String.prototype.includes` check for a pattern over a list of
characters: does `pat` occur contiguously inside the list? -/
def charsStartsWith : List Char → List Char → Bool
  | _, [] => true
  | [], _ :: _ => false
  | c :: cs, p :: ps => c == p && charsStartsWith cs ps

/-- Substring search used by `contentType.includes(...)`. -/
def charsIncludes (pat : List Char) : List Char → Bool
  | [] => pat.isEmpty
  | c :: rest => charsStartsWith (c :: rest) pat || charsIncludes pat rest

/-- `s.includes(pat)` on strings. -/
def strIncludes (s pat : String) : Bool :=
  charsIncludes pat.toList s.toList

/-!
Caller-supplied options.  Every field is optional; `none` models an
absent (`undefined`) JavaScript field, which the source replaces with a
default via `??` (after `?.` chaining for nested objects).
-/

/-- Partial `hsts` options block. -/
structure HstsOptions where
  enabled : Option Bool := none
  maxAge : Option Nat := none
  includeSubDomains : Option Bool := none
  preload : Option Bool := none
deriving DecidableEq, Repr

/-- A CSP directive map.  A `some` field models a key present in the
JavaScript object (arrays are truthy, even when empty); `none` models an
absent key.  `upgradeInsecureRequests` is a boolean flag tested for
truthiness. -/
structure CspDirectives where
  defaultSrc : Option (List String) := none
  scriptSrc : Option (List String) := none
  styleSrc : Option (List String) := none
  imgSrc : Option (List String) := none
  fontSrc : Option (List String) := none
  connectSrc : Option (List String) := none
  frameSrc : Option (List String) := none
  objectSrc : Option (List String) := none
  baseUri : Option (List String) := none
  formAction : Option (List String) := none
  frameAncestors : Option (List String) := none
  upgradeInsecureRequests : Bool := false
deriving DecidableEq, Repr

/-- Partial `csp` options block. -/
structure CspOptions where
  enabled : Option Bool := none
  directives : Option CspDirectives := none
deriving DecidableEq, Repr

/-- Partial `crossOrigin` options block. -/
structure CrossOriginOptions where
  embedderPolicy : Option String := none
  openerPolicy : Option String := none
  resourcePolicy : Option String := none
deriving DecidableEq, Repr

/-- The `options` argument of `securityHeaders(options = {})`. -/
structure SecurityHeadersOptions where
  hsts : Option HstsOptions := none
  csp : Option CspOptions := none
  xFrameOptions : Option String := none
  xContentTypeOptions : Option String := none
  xXssProtection : Option String := none
  referrerPolicy : Option String := none
  permissionsPolicy : Option (List (String × List String)) := none
  crossOrigin : Option CrossOriginOptions := none
  cacheControl : Option String := none
deriving DecidableEq, Repr

/-!
The resolved configuration (`config` inside `securityHeaders`).
-/

/-- Resolved `hsts` block. -/
structure HstsConfig where
  enabled : Bool
  maxAge : Nat
  includeSubDomains : Bool
  preload : Bool
deriving DecidableEq, Repr

/-- Resolved `csp` block. -/
structure CspConfig where
  enabled : Bool
  directives : CspDirectives
deriving DecidableEq, Repr

/-- Resolved `crossOrigin` block. -/
structure CrossOriginConfig where
  embedderPolicy : String
  openerPolicy : String
  resourcePolicy : String
deriving DecidableEq, Repr

/-- The fully resolved configuration captured by the middleware closure. -/
structure SecurityConfig where
  hsts : HstsConfig
  csp : CspConfig
  xFrameOptions : String
  xContentTypeOptions : String
  xXssProtection : String
  referrerPolicy : String
  permissionsPolicy : List (String × List String)
  crossOrigin : CrossOriginConfig
  cacheControl : String
deriving DecidableEq, Repr

/-- Default CSP directive map (source lines 196-209). -/
def defaultCspDirectives : CspDirectives where
  defaultSrc := some ["\x27self\x27"]
  scriptSrc := some ["\x27self\x27", "\x27unsafe-inline\x27"]
  styleSrc := some ["\x27self\x27", "\x27unsafe-inline\x27", "https://fonts.googleapis.com"]
  imgSrc := some ["\x27self\x27", "data:", "https:"]
  fontSrc := some ["\x27self\x27", "https://fonts.gstatic.com"]
  connectSrc := some ["\x27self\x27"]
  frameSrc := some ["\x27none\x27"]
  objectSrc := some ["\x27none\x27"]
  baseUri := some ["\x27self\x27"]
  formAction := some ["\x27self\x27"]
  frameAncestors := some ["\x27none\x27"]
  upgradeInsecureRequests := true

/-- Default permissions policy map (source lines 229-238). -/
def defaultPermissionsPolicy : List (String × List String) :=
  [("accelerometer", []), ("camera", []), ("geolocation", []),
   ("gyroscope", []), ("magnetometer", []), ("microphone", []),
   ("payment", []), ("usb", [])]

/-- Construction of `config` inside `securityHeaders(options)` (source
lines 182-249): every leaf is `options.<path> ?? default`, with optional
chaining through the nested `hsts`, `csp` and `crossOrigin` objects;
`csp.directives` and `permissionsPolicy` are taken whole when present. -/
def securityHeadersConfig (options : SecurityHeadersOptions) : SecurityConfig where
  hsts :=
    { enabled := ((options.hsts.bind HstsOptions.enabled).getD true)
      maxAge := ((options.hsts.bind HstsOptions.maxAge).getD 31536000)
      includeSubDomains := ((options.hsts.bind HstsOptions.includeSubDomains).getD true)
      preload := ((options.hsts.bind HstsOptions.preload).getD false) }
  csp :=
    { enabled := ((options.csp.bind CspOptions.enabled).getD true)
      directives := ((options.csp.bind CspOptions.directives).getD defaultCspDirectives) }
  xFrameOptions := options.xFrameOptions.getD "DENY"
  xContentTypeOptions := options.xContentTypeOptions.getD "nosniff"
  xXssProtection := options.xXssProtection.getD "1; mode=block"
  referrerPolicy := options.referrerPolicy.getD "strict-origin-when-cross-origin"
  permissionsPolicy := options.permissionsPolicy.getD defaultPermissionsPolicy
  crossOrigin :=
    { embedderPolicy := ((options.crossOrigin.bind CrossOriginOptions.embedderPolicy).getD "require-corp")
      openerPolicy := ((options.crossOrigin.bind CrossOriginOptions.openerPolicy).getD "same-origin")
      resourcePolicy := ((options.crossOrigin.bind CrossOriginOptions.resourcePolicy).getD "same-origin") }
  cacheControl :=
    options.cacheControl.getD "no-store, no-cache, must-revalidate, proxy-revalidate"

/-- The fully-defaulted configuration, written out literally, used as the
reference point for the merge claims. -/
def defaultSecurityConfig : SecurityConfig where
  hsts := { enabled := true, maxAge := 31536000, includeSubDomains := true, preload := false }
  csp := { enabled := true, directives := defaultCspDirectives }
  xFrameOptions := "DENY"
  xContentTypeOptions := "nosniff"
  xXssProtection := "1; mode=block"
  referrerPolicy := "strict-origin-when-cross-origin"
  permissionsPolicy := defaultPermissionsPolicy
  crossOrigin :=
    { embedderPolicy := "require-corp", openerPolicy := "same-origin",
      resourcePolicy := "same-origin" }
  cacheControl := "no-store, no-cache, must-revalidate, proxy-revalidate"

/-!
Header-value formatting, translated from the body of
`securityHeadersMiddleware` (source lines 251-361).
-/

/-- HSTS value: `max-age=<n>` with the two suffixes appended in order
when the respective flags are set (source lines 254-260). -/
def hstsHeaderValue (h : HstsConfig) : String :=
  let v1 := "max-age=" ++ toString h.maxAge
  let v2 := if h.includeSubDomains then v1 ++ "; includeSubDomains" else v1
  if h.preload then v2 ++ "; preload" else v2

/-- The pushes into `cspDirectives` (source lines 266-304): one entry per
present (truthy) directive, in declaration order, ending with the bare
`upgrade-insecure-requests` directive when that flag is set. -/
def cspDirectiveStrings (d : CspDirectives) : List String :=
  (match d.defaultSrc with
    | some xs => ["default-src " ++ String.intercalate " " xs]
    | none => []) ++
  (match d.scriptSrc with
    | some xs => ["script-src " ++ String.intercalate " " xs]
    | none => []) ++
  (match d.styleSrc with
    | some xs => ["style-src " ++ String.intercalate " " xs]
    | none => []) ++
  (match d.imgSrc with
    | some xs => ["img-src " ++ String.intercalate " " xs]
    | none => []) ++
  (match d.fontSrc with
    | some xs => ["font-src " ++ String.intercalate " " xs]
    | none => []) ++
  (match d.connectSrc with
    | some xs => ["connect-src " ++ String.intercalate " " xs]
    | none => []) ++
  (match d.frameSrc with
    | some xs => ["frame-src " ++ String.intercalate " " xs]
    | none => []) ++
  (match d.objectSrc with
    | some xs => ["object-src " ++ String.intercalate " " xs]
    | none => []) ++
  (match d.baseUri with
    | some xs => ["base-uri " ++ String.intercalate " " xs]
    | none => []) ++
  (match d.formAction with
    | some xs => ["form-action " ++ String.intercalate " " xs]
    | none => []) ++
  (match d.frameAncestors with
    | some xs => ["frame-ancestors " ++ String.intercalate " " xs]
    | none => []) ++
  (if d.upgradeInsecureRequests then ["upgrade-insecure-requests"] else [])

/-- Joining the pushed directives with a semicolon separator (source line 306). -/
def cspHeaderValue (d : CspDirectives) : String :=
  String.intercalate "; " (cspDirectiveStrings d)

/-- Mapping the permissions-policy entries and joining with a comma
separator (source lines 331-336). -/
def permissionsPolicyValue (pp : List (String × List String)) : String :=
  String.intercalate ", "
    (pp.map fun fa =>
      fa.1 ++ "=" ++
        (if fa.2.length > 0 then "(" ++ String.intercalate " " fa.2 ++ ")" else "()"))

/-!
The middleware body as an effect trace.  Each `<name>Effects` function
is one `if`/`setHeader` block of the source, in source order.
-/

/-- HSTS block (source lines 253-262). -/
def hstsEffects (c : SecurityConfig) : List Effect :=
  if c.hsts.enabled then
    [Effect.setHdr "Strict-Transport-Security" (hstsHeaderValue c.hsts)]
  else []

/-- CSP block (source lines 265-307). -/
def cspEffects (c : SecurityConfig) : List Effect :=
  if c.csp.enabled then
    [Effect.setHdr "Content-Security-Policy" (cspHeaderValue c.csp.directives)]
  else []

/-- X-Frame-Options block (source lines 310-312); a string is truthy
exactly when non-empty. -/
def xfoEffects (c : SecurityConfig) : List Effect :=
  if c.xFrameOptions ≠ "" then
    [Effect.setHdr "X-Frame-Options" c.xFrameOptions]
  else []

/-- X-Content-Type-Options block (source lines 315-317). -/
def xctoEffects (c : SecurityConfig) : List Effect :=
  if c.xContentTypeOptions ≠ "" then
    [Effect.setHdr "X-Content-Type-Options" c.xContentTypeOptions]
  else []

/-- X-XSS-Protection block (source lines 320-322). -/
def xxpEffects (c : SecurityConfig) : List Effect :=
  if c.xXssProtection ≠ "" then
    [Effect.setHdr "X-XSS-Protection" c.xXssProtection]
  else []

/-- Referrer-Policy block (source lines 325-327). -/
def rpEffects (c : SecurityConfig) : List Effect :=
  if c.referrerPolicy ≠ "" then
    [Effect.setHdr "Referrer-Policy" c.referrerPolicy]
  else []

/-- Permissions-Policy block (source lines 330-338).  The guard
`if (config.permissionsPolicy)` tests object truthiness, and every
object — including the empty map — is truthy, so the header is written
unconditionally. -/
def ppEffects (c : SecurityConfig) : List Effect :=
  [Effect.setHdr "Permissions-Policy" (permissionsPolicyValue c.permissionsPolicy)]

/-- Cross-Origin-Embedder-Policy block (source lines 341-343). -/
def coepEffects (c : SecurityConfig) : List Effect :=
  if c.crossOrigin.embedderPolicy ≠ "" then
    [Effect.setHdr "Cross-Origin-Embedder-Policy" c.crossOrigin.embedderPolicy]
  else []

/-- Cross-Origin-Opener-Policy block (source lines 344-346). -/
def coopEffects (c : SecurityConfig) : List Effect :=
  if c.crossOrigin.openerPolicy ≠ "" then
    [Effect.setHdr "Cross-Origin-Opener-Policy" c.crossOrigin.openerPolicy]
  else []

/-- Cross-Origin-Resource-Policy block (source lines 347-349). -/
def corpEffects (c : SecurityConfig) : List Effect :=
  if c.crossOrigin.resourcePolicy ≠ "" then
    [Effect.setHdr "Cross-Origin-Resource-Policy" c.crossOrigin.resourcePolicy]
  else []

/-- All header writes preceding the cache-control step, in source order. -/
def preEffects (c : SecurityConfig) : List Effect :=
  hstsEffects c ++ cspEffects c ++ xfoEffects c ++ xctoEffects c ++
  xxpEffects c ++ rpEffects c ++ ppEffects c ++ coepEffects c ++
  coopEffects c ++ corpEffects c

/-- Cache-control block (source lines 353-358), applied to the
content type read at that point: the three headers are written when the
content type contains none of the four substrings. -/
def cacheEffects (c : SecurityConfig) (contentType : String) : List Effect :=
  if !strIncludes contentType "image" && !strIncludes contentType "font" &&
     !strIncludes contentType "css" && !strIncludes contentType "javascript" then
    [Effect.setHdr "Cache-Control" c.cacheControl,
     Effect.setHdr "Pragma" "no-cache",
     Effect.setHdr "Expires" "0"]
  else []

/-- The content-type read (with empty-string fallback) evaluated at
source line 353, after
the earlier header writes have been applied. -/
def responseContentType (c : SecurityConfig) (res : Headers) : String :=
  (getHeader (runEffects res (preEffects c)) "Content-Type").getD ""

/-- The complete effect trace of one invocation of
`securityHeadersMiddleware` on response state `res`. -/
def securityHeadersEffects (c : SecurityConfig) (ct : String) : List Effect :=
  preEffects c ++ cacheEffects c ct ++ [Effect.callNext]

/-- One invocation of `securityHeadersMiddleware(req, res, next)`
(source lines 251-361): returns the final response headers and the
trace of performed effects.  `req` is received but never consulted. -/
def securityHeadersMiddleware (c : SecurityConfig) (req res : Headers) :
    Headers × List Effect :=
  let es := securityHeadersEffects c (responseContentType c res)
  (runEffects res es, es)

/-- `securityHeaders(options)`: build the configuration once, return the
middleware (source lines 181-362). -/
def securityHeaders (options : SecurityHeadersOptions) :
    Headers → Headers → Headers × List Effect :=
  securityHeadersMiddleware (securityHeadersConfig options)

/-!
The rate-limit header annotator (source lines 374-396).
-/

/-- The `options` argument of `rateLimitHeaders(options = {})`. -/
structure RateLimitOptions where
  limit : Option Nat := none
  window : Option Nat := none
  remaining : Option Nat := none
deriving DecidableEq, Repr

/-- Resolved rate-limit configuration: `limit ?? 100`, `window ?? 60`,
`remaining ?? null` (source lines 375-379). -/
structure RateLimitConfig where
  limit : Nat
  window : Nat
  remaining : Option Nat
deriving DecidableEq, Repr

/-- Configuration construction inside `rateLimitHeaders`. -/
def rateLimitConfig (options : RateLimitOptions) : RateLimitConfig where
  limit := options.limit.getD 100
  window := options.window.getD 60
  remaining := options.remaining

/-- Effect trace of one `rateLimitHeadersMiddleware` invocation
(source lines 381-395): limit, window, conditionally remaining, the
static Cloudflare marker, then `next()`. -/
def rateLimitHeadersEffects (c : RateLimitConfig) : List Effect :=
  [Effect.setHdr "X-RateLimit-Limit" (toString c.limit),
   Effect.setHdr "X-RateLimit-Window" (toString c.window)] ++
  (match c.remaining with
    | some r => [Effect.setHdr "X-RateLimit-Remaining" (toString r)]
    | none => []) ++
  [Effect.setHdr "CF-Cache-Status" "DYNAMIC", Effect.callNext]

/-- `rateLimitHeaders(options)` applied to a request/response pair. -/
def rateLimitHeaders (options : RateLimitOptions) (req res : Headers) :
    Headers × List Effect :=
  let es := rateLimitHeadersEffects (rateLimitConfig options)
  (runEffects res es, es)

/-!
The Hono adapter (source lines 479-498) and its config helper
`buildConfig` (source lines 501-514).
-/

/-- The partial configuration `buildConfig` resolves: it covers only
`hsts` and the four scalar header fields. -/
structure HonoConfig where
  hsts : HstsConfig
  xFrameOptions : String
  xContentTypeOptions : String
  xXssProtection : String
  referrerPolicy : String
deriving DecidableEq, Repr

/-- `buildConfig(options)` (source lines 501-514). -/
def buildConfig (options : SecurityHeadersOptions) : HonoConfig where
  hsts :=
    { enabled := ((options.hsts.bind HstsOptions.enabled).getD true)
      maxAge := ((options.hsts.bind HstsOptions.maxAge).getD 31536000)
      includeSubDomains := ((options.hsts.bind HstsOptions.includeSubDomains).getD true)
      preload := ((options.hsts.bind HstsOptions.preload).getD false) }
  xFrameOptions := options.xFrameOptions.getD "DENY"
  xContentTypeOptions := options.xContentTypeOptions.getD "nosniff"
  xXssProtection := options.xXssProtection.getD "1; mode=block"
  referrerPolicy := options.referrerPolicy.getD "strict-origin-when-cross-origin"

/-- Effect trace of the Hono middleware body (source lines 482-497):
`await next()` first, then conditionally HSTS (with the value built by
the same chain of appends as the Express version), then the three
unconditional `c.header(...)` calls. -/
def securityHeadersHonoEffects (c : HonoConfig) : List Effect :=
  Effect.callNext ::
    ((if c.hsts.enabled then
        [Effect.setHdr "Strict-Transport-Security"
          (let v1 := "max-age=" ++ toString c.hsts.maxAge
           let v2 := if c.hsts.includeSubDomains then v1 ++ "; includeSubDomains" else v1
           if c.hsts.preload then v2 ++ "; preload" else v2)]
      else []) ++
     [Effect.setHdr "X-Frame-Options" c.xFrameOptions,
      Effect.setHdr "X-Content-Type-Options" c.xContentTypeOptions,
      Effect.setHdr "Referrer-Policy" c.referrerPolicy])

/-- `securityHeadersHono(options)` applied to a response state. -/
def securityHeadersHono (options : SecurityHeadersOptions) (res : Headers) :
    Headers × List Effect :=
  let es := securityHeadersHonoEffects (buildConfig options)
  (runEffects res es, es)

/-!
Infrastructure lemmas about traces and the header store.
-/

theorem runEffects_append (h : Headers) (a b : List Effect) :
    runEffects h (a ++ b) = runEffects (runEffects h a) b := by
  induction a generalizing h with
  | nil => rfl
  | cons e es ih => cases e <;> simp [runEffects, ih]

theorem rawNames_append (a b : List Effect) :
    rawNames (a ++ b) = rawNames a ++ rawNames b := by
  induction a with
  | nil => rfl
  | cons e es ih => cases e <;> simp [rawNames, ih]

theorem emittedValue_append (a b : List Effect) (n : String) :
    emittedValue (a ++ b) n = (emittedValue a n).or (emittedValue b n) := by
  induction a with
  | nil => rfl
  | cons e es ih =>
      cases e with
      | setHdr m v =>
          by_cases hmn : m = n <;> simp [emittedValue, hmn, ih, Option.or]
      | callNext => simp [emittedValue, ih]

theorem emittedValue_eq_none_of_not_mem {es : List Effect} {n : String}
    (h : n ∉ rawNames es) : emittedValue es n = none := by
  induction es with
  | nil => rfl
  | cons e es ih =>
      cases e with
      | setHdr m v =>
          simp only [rawNames, List.mem_cons, not_or] at h
          have hmn : ¬(m = n) := fun e => h.1 e.symm
          simp [emittedValue, hmn, ih h.2]
      | callNext =>
          simp only [rawNames] at h
          simp [emittedValue, ih h]

theorem mem_rawNames_of_emittedValue_isSome {es : List Effect} {n : String}
    (h : (emittedValue es n).isSome) : n ∈ rawNames es := by
  by_contra hn
  rw [emittedValue_eq_none_of_not_mem hn] at h
  simp at h

theorem firstMatch_setHeader_of_ne {m n : String} (hmn : lowerName m ≠ lowerName n)
    (h : Headers) (v : String) :
    firstMatch (setHeader h m v) n = firstMatch h n := by
  induction h with
  | nil => simp [setHeader, firstMatch, hmn]
  | cons p rest ih =>
      simp only [setHeader]
      by_cases hp : lowerName p.1 = lowerName m
      · rw [if_pos hp]
        have hpn : ¬(lowerName p.1 = lowerName n) := by rw [hp]; exact hmn
        simp [firstMatch, hmn, hpn]
      · rw [if_neg hp]
        by_cases hpn : lowerName p.1 = lowerName n <;>
          simp [firstMatch, hpn, ih]

theorem getHeader_setHeader_of_ne {m n : String} (hmn : lowerName m ≠ lowerName n)
    (h : Headers) (v : String) :
    getHeader (setHeader h m v) n = getHeader h n := by
  simp [getHeader, firstMatch_setHeader_of_ne hmn]

theorem getHeader_runEffects_of_forall_ne {es : List Effect} {n : String}
    (hne : ∀ m ∈ rawNames es, lowerName m ≠ lowerName n) (h : Headers) :
    getHeader (runEffects h es) n = getHeader h n := by
  induction es generalizing h with
  | nil => rfl
  | cons e es ih =>
      cases e with
      | setHdr m v =>
          have hm : lowerName m ≠ lowerName n := hne m (by simp [rawNames])
          have hrest : ∀ m' ∈ rawNames es, lowerName m' ≠ lowerName n := by
            intro m' hm'; exact hne m' (by simp [rawNames, hm'])
          simp [runEffects, ih hrest, getHeader_setHeader_of_ne hm]
      | callNext =>
          have hrest : ∀ m' ∈ rawNames es, lowerName m' ≠ lowerName n := by
            intro m' hm'; exact hne m' (by simp [rawNames, hm'])
          simp [runEffects, ih hrest]

/-- The (case-insensitively) first matching entry for `n` in the store is
exactly `(n, v)`. -/
def pinned (h : Headers) (n v : String) : Prop :=
  firstMatch h n = some (n, v)

theorem pinned_setHeader_self (h : Headers) (n v : String) :
    pinned (setHeader h n v) n v := by
  induction h with
  | nil => simp [pinned, setHeader, firstMatch]
  | cons p rest ih =>
      by_cases hp : lowerName p.1 = lowerName n <;>
        simp [pinned, setHeader, firstMatch, hp] <;>
        simpa [pinned] using ih

theorem pinned_setHeader_of_ne {m n : String} (hmn : lowerName m ≠ lowerName n)
    {h : Headers} {v : String} (hp : pinned h n v) (w : String) :
    pinned (setHeader h m w) n v := by
  simpa [pinned, firstMatch_setHeader_of_ne hmn] using hp

theorem setHeader_eq_of_pinned {h : Headers} {n v : String}
    (hp : pinned h n v) : setHeader h n v = h := by
  induction h with
  | nil => simp [pinned, firstMatch] at hp
  | cons p rest ih =>
      simp only [pinned, firstMatch] at hp
      simp only [setHeader]
      by_cases hpn : lowerName p.1 = lowerName n
      · rw [if_pos hpn] at hp
        have hpv : p = (n, v) := Option.some.inj hp
        rw [if_pos hpn, hpv]
      · rw [if_neg hpn] at hp
        rw [if_neg hpn, ih hp]

theorem pinned_runEffects_of_forall_ne {es : List Effect} {n : String}
    (hne : ∀ m ∈ rawNames es, lowerName m ≠ lowerName n) {h : Headers} {v : String}
    (hp : pinned h n v) : pinned (runEffects h es) n v := by
  induction es generalizing h with
  | nil => exact hp
  | cons e es ih =>
      cases e with
      | setHdr m w =>
          have hm : lowerName m ≠ lowerName n := hne m (by simp [rawNames])
          have hrest : ∀ m' ∈ rawNames es, lowerName m' ≠ lowerName n := by
            intro m' hm'; exact hne m' (by simp [rawNames, hm'])
          exact ih hrest (pinned_setHeader_of_ne hm hp w)
      | callNext =>
          have hrest : ∀ m' ∈ rawNames es, lowerName m' ≠ lowerName n := by
            intro m' hm'; exact hne m' (by simp [rawNames, hm'])
          exact ih hrest hp

/-- Replaying a trace whose written names are (case-insensitively)
pairwise distinct is idempotent on the header store. -/
theorem runEffects_twice_of_nodup {es : List Effect}
    (hnd : ((rawNames es).map lowerName).Nodup) (h : Headers) :
    runEffects (runEffects h es) es = runEffects h es := by
  induction es generalizing h with
  | nil => rfl
  | cons e es ih =>
      cases e with
      | setHdr n v =>
          simp only [rawNames, List.map_cons, List.nodup_cons] at hnd
          obtain ⟨hmem, hnd'⟩ := hnd
          have hne : ∀ m ∈ rawNames es, lowerName m ≠ lowerName n := by
            intro m hm heq
            exact hmem (heq ▸ List.mem_map_of_mem lowerName hm)
          simp only [runEffects]
          have hpin : pinned (runEffects (setHeader h n v) es) n v :=
            pinned_runEffects_of_forall_ne hne (pinned_setHeader_self h n v)
          calc runEffects (setHeader (runEffects (setHeader h n v) es) n v) es
              = runEffects (runEffects (setHeader h n v) es) es := by
                rw [setHeader_eq_of_pinned hpin]
            _ = runEffects (setHeader h n v) es := ih hnd' _
      | callNext =>
          simp only [rawNames, runEffects] at hnd ⊢
          exact ih hnd h

/-!
Bookkeeping about which header names a trace can write.
-/

/-- Names written before the cache-control step, in source order. -/
def preNames : List String :=
  ["Strict-Transport-Security", "Content-Security-Policy", "X-Frame-Options",
   "X-Content-Type-Options", "X-XSS-Protection", "Referrer-Policy",
   "Permissions-Policy", "Cross-Origin-Embedder-Policy",
   "Cross-Origin-Opener-Policy", "Cross-Origin-Resource-Policy"]

/-- All names the Express middleware can write. -/
def masterNames : List String :=
  preNames ++ ["Cache-Control", "Pragma", "Expires"]

theorem rawNames_ite_sublist (cnd : Prop) [Decidable cnd] (a w : String) :
    List.Sublist (rawNames (if cnd then [Effect.setHdr a w] else [])) [a] := by
  split
  · exact List.Sublist.refl _
  · exact List.nil_sublist _

theorem rawNames_preEffects_sublist (c : SecurityConfig) :
    List.Sublist (rawNames (preEffects c)) preNames := by
  simp only [preEffects, rawNames_append]
  exact ((((((((((rawNames_ite_sublist _ _ _).append
    (rawNames_ite_sublist _ _ _)).append
    (rawNames_ite_sublist _ _ _)).append
    (rawNames_ite_sublist _ _ _)).append
    (rawNames_ite_sublist _ _ _)).append
    (rawNames_ite_sublist _ _ _)).append
    (List.Sublist.refl _)).append
    (rawNames_ite_sublist _ _ _)).append
    (rawNames_ite_sublist _ _ _)).append
    (rawNames_ite_sublist _ _ _))

theorem rawNames_cacheEffects_sublist (c : SecurityConfig) (ct : String) :
    List.Sublist (rawNames (cacheEffects c ct)) ["Cache-Control", "Pragma", "Expires"] := by
  unfold cacheEffects
  split
  · exact List.Sublist.refl _
  · exact List.nil_sublist _

theorem rawNames_effects_sublist (c : SecurityConfig) (ct : String) :
    List.Sublist (rawNames (securityHeadersEffects c ct)) masterNames := by
  simp only [securityHeadersEffects, rawNames_append]
  have h1 : rawNames [Effect.callNext] = [] := rfl
  rw [h1, List.append_nil]
  exact (rawNames_preEffects_sublist c).append (rawNames_cacheEffects_sublist c ct)

theorem preNames_lower_ne_contentType :
    ∀ m ∈ preNames, lowerName m ≠ lowerName "Content-Type" := by decide

theorem masterNames_lower_ne_contentType :
    ∀ m ∈ masterNames, lowerName m ≠ lowerName "Content-Type" := by decide

theorem masterNames_lower_nodup : (masterNames.map lowerName).Nodup := by decide

/-- The writes preceding the cache-control step never touch
`Content-Type`, so the content type read at source line 353 is the one
already present on the incoming response state. -/
theorem responseContentType_eq (c : SecurityConfig) (res : Headers) :
    responseContentType c res = (getHeader res "Content-Type").getD "" := by
  unfold responseContentType
  rw [getHeader_runEffects_of_forall_ne
    (fun m hm => preNames_lower_ne_contentType m
      ((rawNames_preEffects_sublist c).subset hm)) res]

theorem getHeader_contentType_run_effects (c : SecurityConfig) (ct : String)
    (res : Headers) :
    getHeader (runEffects res (securityHeadersEffects c ct)) "Content-Type"
      = getHeader res "Content-Type" :=
  getHeader_runEffects_of_forall_ne
    (fun m hm => masterNames_lower_ne_contentType m
      ((rawNames_effects_sublist c ct).subset hm)) res

theorem effects_lower_nodup (c : SecurityConfig) (ct : String) :
    ((rawNames (securityHeadersEffects c ct)).map lowerName).Nodup :=
  List.Nodup.sublist ((rawNames_effects_sublist c ct).map lowerName)
    (by exact masterNames_lower_nodup)

/-- C6: applying the `securityHeaders` middleware twice with the same
resolved configuration to the same request/response pair yields exactly
the same final response header map as applying it once — every header it
writes is overwritten in place, never appended, so the second
application is the identity on the post-first-application header
state. -/
theorem securityHeaders_apply_idempotent (c : SecurityConfig) (req res : Headers) :
    (securityHeadersMiddleware c req (securityHeadersMiddleware c req res).1).1
      = (securityHeadersMiddleware c req res).1 := by
  simp only [securityHeadersMiddleware]
  have hct : responseContentType c
      (runEffects res (securityHeadersEffects c (responseContentType c res)))
        = responseContentType c res := by
    rw [responseContentType_eq, responseContentType_eq,
      getHeader_contentType_run_effects]
  rw [hct]
  exact runEffects_twice_of_nodup (effects_lower_nodup c _) res

/-!
Helper lemmas for reading single emissions out of the middleware trace.
-/

theorem emittedValue_ite_ne (cnd : Prop) [Decidable cnd] {a n : String}
    (w : String) (h : a ≠ n) :
    emittedValue (if cnd then [Effect.setHdr a w] else []) n = none := by
  split <;> simp [emittedValue, h]

theorem emittedValue_ite_self (cnd : Prop) [Decidable cnd] (a w : String) :
    emittedValue (if cnd then [Effect.setHdr a w] else []) a
      = if cnd then some w else none := by
  split <;> simp [emittedValue]

theorem emittedValue_cacheEffects_ne {c : SecurityConfig} {ct n : String}
    (h1 : n ≠ "Cache-Control") (h2 : n ≠ "Pragma") (h3 : n ≠ "Expires") :
    emittedValue (cacheEffects c ct) n = none := by
  unfold cacheEffects
  split <;> simp [emittedValue, Ne.symm h1, Ne.symm h2, Ne.symm h3]

theorem emittedValue_callNext (n : String) :
    emittedValue [Effect.callNext] n = none := rfl

theorem hstsEffects_ev_ne (c : SecurityConfig) {n : String}
    (h : n ≠ "Strict-Transport-Security") :
    emittedValue (hstsEffects c) n = none :=
  emittedValue_ite_ne _ _ (Ne.symm h)

theorem hstsEffects_ev_self (c : SecurityConfig) :
    emittedValue (hstsEffects c) "Strict-Transport-Security"
      = if c.hsts.enabled then some (hstsHeaderValue c.hsts) else none :=
  emittedValue_ite_self _ _ _

theorem cspEffects_ev_ne (c : SecurityConfig) {n : String}
    (h : n ≠ "Content-Security-Policy") :
    emittedValue (cspEffects c) n = none :=
  emittedValue_ite_ne _ _ (Ne.symm h)

theorem cspEffects_ev_self (c : SecurityConfig) :
    emittedValue (cspEffects c) "Content-Security-Policy"
      = if c.csp.enabled then some (cspHeaderValue c.csp.directives) else none :=
  emittedValue_ite_self _ _ _

theorem xfoEffects_ev_ne (c : SecurityConfig) {n : String}
    (h : n ≠ "X-Frame-Options") :
    emittedValue (xfoEffects c) n = none :=
  emittedValue_ite_ne _ _ (Ne.symm h)

theorem xfoEffects_ev_self (c : SecurityConfig) :
    emittedValue (xfoEffects c) "X-Frame-Options"
      = if c.xFrameOptions ≠ "" then some c.xFrameOptions else none :=
  emittedValue_ite_self _ _ _

theorem xctoEffects_ev_ne (c : SecurityConfig) {n : String}
    (h : n ≠ "X-Content-Type-Options") :
    emittedValue (xctoEffects c) n = none :=
  emittedValue_ite_ne _ _ (Ne.symm h)

theorem xctoEffects_ev_self (c : SecurityConfig) :
    emittedValue (xctoEffects c) "X-Content-Type-Options"
      = if c.xContentTypeOptions ≠ "" then some c.xContentTypeOptions else none :=
  emittedValue_ite_self _ _ _

theorem xxpEffects_ev_ne (c : SecurityConfig) {n : String}
    (h : n ≠ "X-XSS-Protection") :
    emittedValue (xxpEffects c) n = none :=
  emittedValue_ite_ne _ _ (Ne.symm h)

theorem rpEffects_ev_ne (c : SecurityConfig) {n : String}
    (h : n ≠ "Referrer-Policy") :
    emittedValue (rpEffects c) n = none :=
  emittedValue_ite_ne _ _ (Ne.symm h)

theorem rpEffects_ev_self (c : SecurityConfig) :
    emittedValue (rpEffects c) "Referrer-Policy"
      = if c.referrerPolicy ≠ "" then some c.referrerPolicy else none :=
  emittedValue_ite_self _ _ _

theorem ppEffects_ev_ne (c : SecurityConfig) {n : String}
    (h : n ≠ "Permissions-Policy") :
    emittedValue (ppEffects c) n = none := by
  simp [ppEffects, emittedValue, Ne.symm h]

theorem ppEffects_ev_self (c : SecurityConfig) :
    emittedValue (ppEffects c) "Permissions-Policy"
      = some (permissionsPolicyValue c.permissionsPolicy) := by
  simp [ppEffects, emittedValue]

theorem coepEffects_ev_ne (c : SecurityConfig) {n : String}
    (h : n ≠ "Cross-Origin-Embedder-Policy") :
    emittedValue (coepEffects c) n = none :=
  emittedValue_ite_ne _ _ (Ne.symm h)

theorem coopEffects_ev_ne (c : SecurityConfig) {n : String}
    (h : n ≠ "Cross-Origin-Opener-Policy") :
    emittedValue (coopEffects c) n = none :=
  emittedValue_ite_ne _ _ (Ne.symm h)

theorem corpEffects_ev_ne (c : SecurityConfig) {n : String}
    (h : n ≠ "Cross-Origin-Resource-Policy") :
    emittedValue (corpEffects c) n = none :=
  emittedValue_ite_ne _ _ (Ne.symm h)

/-- The HSTS value formats as the claim states it: base, then the two
optional suffixes, in that order. -/
theorem hstsHeaderValue_spec (h : HstsConfig) :
    hstsHeaderValue h = "max-age=" ++ toString h.maxAge
      ++ (if h.includeSubDomains then "; includeSubDomains" else "")
      ++ (if h.preload then "; preload" else "") := by
  unfold hstsHeaderValue
  cases hs : h.includeSubDomains <;> cases hp : h.preload <;>
    simp [String.append_assoc]

/-- C2: for every resolved configuration, the middleware emits
`Strict-Transport-Security` if and only if `hsts.enabled` is true, and
when emitted its value is exactly `max-age=<n>` followed optionally by
`; includeSubDomains` and then optionally by `; preload`, each suffix
present exactly when the respective flag is true, in that fixed
order. -/
theorem securityHeaders_hsts_emission (c : SecurityConfig) (req res : Headers) :
    emittedValue ((securityHeadersMiddleware c req res).2) "Strict-Transport-Security"
      = if c.hsts.enabled then
          some ("max-age=" ++ toString c.hsts.maxAge
            ++ (if c.hsts.includeSubDomains then "; includeSubDomains" else "")
            ++ (if c.hsts.preload then "; preload" else ""))
        else none := by
  simp only [securityHeadersMiddleware, securityHeadersEffects, preEffects,
    List.append_assoc, emittedValue_append]
  rw [hstsEffects_ev_self, cspEffects_ev_ne c (by decide),
    xfoEffects_ev_ne c (by decide), xctoEffects_ev_ne c (by decide),
    xxpEffects_ev_ne c (by decide), rpEffects_ev_ne c (by decide),
    ppEffects_ev_ne c (by decide), coepEffects_ev_ne c (by decide),
    coopEffects_ev_ne c (by decide), corpEffects_ev_ne c (by decide),
    emittedValue_cacheEffects_ne (by decide) (by decide) (by decide),
    emittedValue_callNext]
  cases he : c.hsts.enabled <;> simp [Option.or, hstsHeaderValue_spec]

/-- C7: `rateLimitHeaders` always emits the configured limit and window
and the static Cloudflare marker, and emits `X-RateLimit-Remaining`
exactly when the caller supplied a remaining count. -/
theorem rateLimitHeaders_emission (o : RateLimitOptions) (req res : Headers) :
    emittedValue ((rateLimitHeaders o req res).2) "X-RateLimit-Limit"
        = some (toString (rateLimitConfig o).limit)
    ∧ emittedValue ((rateLimitHeaders o req res).2) "X-RateLimit-Window"
        = some (toString (rateLimitConfig o).window)
    ∧ emittedValue ((rateLimitHeaders o req res).2) "CF-Cache-Status"
        = some "DYNAMIC"
    ∧ emittedValue ((rateLimitHeaders o req res).2) "X-RateLimit-Remaining"
        = Option.map toString o.remaining := by
  refine ⟨?_, ?_, ?_, ?_⟩ <;>
    cases hr : o.remaining <;>
      simp [rateLimitHeaders, rateLimitHeadersEffects, rateLimitConfig,
        emittedValue, hr]

theorem nextCount_append (a b : List Effect) :
    nextCount (a ++ b) = nextCount a + nextCount b := by
  induction a with
  | nil => simp [nextCount]
  | cons e es ih => cases e <;> simp [nextCount, ih] <;> omega

theorem nextCount_ite (cnd : Prop) [Decidable cnd] (a w : String) :
    nextCount (if cnd then [Effect.setHdr a w] else []) = 0 := by
  split <;> rfl

theorem nextCount_ite_flip (cnd : Prop) [Decidable cnd] (a w : String) :
    nextCount (if cnd then [] else [Effect.setHdr a w]) = 0 := by
  split <;> rfl

theorem nextCount_preEffects (c : SecurityConfig) :
    nextCount (preEffects c) = 0 := by
  simp [preEffects, hstsEffects, cspEffects, xfoEffects, xctoEffects,
    xxpEffects, rpEffects, ppEffects, coepEffects, coopEffects, corpEffects,
    nextCount_append, nextCount_ite, nextCount_ite_flip, nextCount]

theorem nextCount_cacheEffects (c : SecurityConfig) (ct : String) :
    nextCount (cacheEffects c ct) = 0 := by
  unfold cacheEffects; split <;> rfl

/-- C8: on any configuration and request/response pair the middleware
invokes the next handler exactly once, as the last recorded action,
after all of its header writes; it never short-circuits the request
(the modelled body is a total function). -/
theorem securityHeaders_calls_next_once (c : SecurityConfig) (req res : Headers) :
    nextCount ((securityHeadersMiddleware c req res).2) = 1
    ∧ ((securityHeadersMiddleware c req res).2).getLast? = some Effect.callNext := by
  constructor
  · simp [securityHeadersMiddleware, securityHeadersEffects, nextCount_append,
      nextCount_preEffects, nextCount_cacheEffects, nextCount]
  · simp only [securityHeadersMiddleware, securityHeadersEffects]
    rw [List.append_assoc]
    simp [List.getLast?_append]

/-- C10: the middleware never reads inbound request data — for a fixed
configuration and initial response state, two invocations on arbitrary,
possibly different, requests produce identical header writes and final
state. -/
theorem securityHeaders_ignores_request (c : SecurityConfig)
    (req1 req2 res : Headers) :
    securityHeadersMiddleware c req1 res = securityHeadersMiddleware c req2 res := rfl

/-- Reading `Cache-Control` out of the cache-control block. -/
theorem cacheEffects_ev_cacheControl (c : SecurityConfig) (ct : String) :
    emittedValue (cacheEffects c ct) "Cache-Control"
      = if strIncludes ct "image" || strIncludes ct "font" ||
           strIncludes ct "css" || strIncludes ct "javascript"
        then none else some c.cacheControl := by
  unfold cacheEffects
  cases h1 : strIncludes ct "image" <;> cases h2 : strIncludes ct "font" <;>
    cases h3 : strIncludes ct "css" <;> cases h4 : strIncludes ct "javascript" <;>
      simp [emittedValue]

/-- Reading `Pragma` out of the cache-control block. -/
theorem cacheEffects_ev_pragma (c : SecurityConfig) (ct : String) :
    emittedValue (cacheEffects c ct) "Pragma"
      = if strIncludes ct "image" || strIncludes ct "font" ||
           strIncludes ct "css" || strIncludes ct "javascript"
        then none else some "no-cache" := by
  unfold cacheEffects
  cases h1 : strIncludes ct "image" <;> cases h2 : strIncludes ct "font" <;>
    cases h3 : strIncludes ct "css" <;> cases h4 : strIncludes ct "javascript" <;>
      simp [emittedValue]

/-- Reading `Expires` out of the cache-control block. -/
theorem cacheEffects_ev_expires (c : SecurityConfig) (ct : String) :
    emittedValue (cacheEffects c ct) "Expires"
      = if strIncludes ct "image" || strIncludes ct "font" ||
           strIncludes ct "css" || strIncludes ct "javascript"
        then none else some "0" := by
  unfold cacheEffects
  cases h1 : strIncludes ct "image" <;> cases h2 : strIncludes ct "font" <;>
    cases h3 : strIncludes ct "css" <;> cases h4 : strIncludes ct "javascript" <;>
      simp [emittedValue]

/-- C5: for every configuration and response state, the middleware emits
`Cache-Control` (with the configured value), `Pragma: no-cache` and
`Expires: 0` if and only if the `Content-Type` already set on the
response (the empty string when absent) contains none of the substrings
"image", "font", "css", "javascript". -/
theorem securityHeaders_cache_suppression (c : SecurityConfig) (req res : Headers) :
    (emittedValue ((securityHeadersMiddleware c req res).2) "Cache-Control"
      = if strIncludes ((getHeader res "Content-Type").getD "") "image" ||
           strIncludes ((getHeader res "Content-Type").getD "") "font" ||
           strIncludes ((getHeader res "Content-Type").getD "") "css" ||
           strIncludes ((getHeader res "Content-Type").getD "") "javascript"
        then none else some c.cacheControl)
    ∧ (emittedValue ((securityHeadersMiddleware c req res).2) "Pragma"
      = if strIncludes ((getHeader res "Content-Type").getD "") "image" ||
           strIncludes ((getHeader res "Content-Type").getD "") "font" ||
           strIncludes ((getHeader res "Content-Type").getD "") "css" ||
           strIncludes ((getHeader res "Content-Type").getD "") "javascript"
        then none else some "no-cache")
    ∧ (emittedValue ((securityHeadersMiddleware c req res).2) "Expires"
      = if strIncludes ((getHeader res "Content-Type").getD "") "image" ||
           strIncludes ((getHeader res "Content-Type").getD "") "font" ||
           strIncludes ((getHeader res "Content-Type").getD "") "css" ||
           strIncludes ((getHeader res "Content-Type").getD "") "javascript"
        then none else some "0") := by
  refine ⟨?_, ?_, ?_⟩ <;>
  · simp only [securityHeadersMiddleware, securityHeadersEffects, preEffects,
      List.append_assoc, emittedValue_append, responseContentType_eq]
    rw [hstsEffects_ev_ne c (by decide), cspEffects_ev_ne c (by decide),
      xfoEffects_ev_ne c (by decide), xctoEffects_ev_ne c (by decide),
      xxpEffects_ev_ne c (by decide), rpEffects_ev_ne c (by decide),
      ppEffects_ev_ne c (by decide), coepEffects_ev_ne c (by decide),
      coopEffects_ev_ne c (by decide), corpEffects_ev_ne c (by decide),
      emittedValue_callNext]
    simp [Option.none_or, Option.or_none,
      cacheEffects_ev_cacheControl, cacheEffects_ev_pragma, cacheEffects_ev_expires]

/-- Rendering of one permissions-policy entry: the conditional in the source
`(join)` versus `()` collapses to always parenthesising the joined
origin list. -/
theorem ppEntry_spec (name : String) (l : List String) :
    name ++ "=" ++ (if l.length > 0 then "(" ++ String.intercalate " " l ++ ")" else "()")
      = name ++ "=" ++ ("(" ++ String.intercalate " " l ++ ")") := by
  cases l with
  | nil => rfl
  | cons a t => rw [if_pos (by simp)]

/-- The permissions-policy value formats as the claim states it. -/
theorem permissionsPolicyValue_spec (pp : List (String × List String)) :
    permissionsPolicyValue pp
      = String.intercalate ", "
          (pp.map fun fa => fa.1 ++ "=" ++ ("(" ++ String.intercalate " " fa.2 ++ ")")) := by
  unfold permissionsPolicyValue
  exact congrArg _ (List.map_congr_left fun fa _ => ppEntry_spec fa.1 fa.2)

/-- A configuration whose permissions-policy map is empty. -/
def ppEmptyConfig : SecurityConfig :=
  { defaultSecurityConfig with permissionsPolicy := [] }

/-- A configuration carrying the two-entry permissions-policy example
from the claim. -/
def ppExampleConfig : SecurityConfig :=
  { defaultSecurityConfig with
      permissionsPolicy := [("camera", []), ("geolocation", ["\x27self\x27"])] }

/-- C4 counterexample: with an empty `permissionsPolicy` map the
middleware still emits the `Permissions-Policy` header (with the empty
value), because `if (config.permissionsPolicy)` tests object truthiness
and the empty object is truthy — contradicting the claim that an empty
map emits no header. -/
theorem securityHeaders_pp_empty_map_still_emits :
    ppEmptyConfig.permissionsPolicy = []
    ∧ emittedValue ((securityHeadersMiddleware ppEmptyConfig [] []).2)
        "Permissions-Policy" = some ""
    ∧ ¬(emittedValue ((securityHeadersMiddleware ppEmptyConfig [] []).2)
        "Permissions-Policy" = none) := by
  refine ⟨rfl, by decide, by decide⟩

/-- C4 (amended): the middleware always emits `Permissions-Policy` —
even for the empty map, whose value renders as the empty string — with
value the comma-joined list of `<feature>=(<space-joined origins>)`
entries in input key order, an empty origin list rendering as `()`; the
two-entry example from the claim renders exactly as stated. -/
theorem securityHeaders_permissionsPolicy_emission (c : SecurityConfig)
    (req res : Headers) :
    emittedValue ((securityHeadersMiddleware c req res).2) "Permissions-Policy"
      = some (String.intercalate ", "
          (c.permissionsPolicy.map fun fa =>
            fa.1 ++ "=" ++ ("(" ++ String.intercalate " " fa.2 ++ ")")))
    ∧ emittedValue ((securityHeadersMiddleware ppExampleConfig [] []).2)
        "Permissions-Policy" = some "camera=(), geolocation=(\x27self\x27)" := by
  constructor
  · simp only [securityHeadersMiddleware, securityHeadersEffects, preEffects,
      List.append_assoc, emittedValue_append]
    rw [hstsEffects_ev_ne c (by decide), cspEffects_ev_ne c (by decide),
      xfoEffects_ev_ne c (by decide), xctoEffects_ev_ne c (by decide),
      xxpEffects_ev_ne c (by decide), rpEffects_ev_ne c (by decide),
      ppEffects_ev_self, coepEffects_ev_ne c (by decide),
      coopEffects_ev_ne c (by decide), corpEffects_ev_ne c (by decide),
      emittedValue_callNext]
    simp [Option.none_or, Option.or_none, permissionsPolicyValue_spec]
  · decide

theorem filterMap_cons_toList {α β : Type} (f : α → Option β) (a : α) (l : List α) :
    List.filterMap f (a :: l) = (f a).toList ++ List.filterMap f l := by
  cases h : f a <;> simp [List.filterMap_cons, h]

theorem toList_map_opt (name : String) (o : Option (List String)) :
    (Option.map (fun ts => name ++ " " ++ String.intercalate " " ts) o).toList
      = match o with
        | some xs => [name ++ " " ++ String.intercalate " " xs]
        | none => [] := by
  cases o <;> rfl

/-- The pushed CSP directive strings are exactly the present directives,
rendered `<kebab-case-name> <space-joined tokens>`, in declaration
order, with the bare upgrade directive appended when flagged. -/
theorem cspDirectiveStrings_spec (d : CspDirectives) :
    cspDirectiveStrings d
      = (List.filterMap
          (fun nd => Option.map (fun ts => nd.1 ++ " " ++ String.intercalate " " ts) nd.2)
          [("default-src", d.defaultSrc), ("script-src", d.scriptSrc),
           ("style-src", d.styleSrc), ("img-src", d.imgSrc),
           ("font-src", d.fontSrc), ("connect-src", d.connectSrc),
           ("frame-src", d.frameSrc), ("object-src", d.objectSrc),
           ("base-uri", d.baseUri), ("form-action", d.formAction),
           ("frame-ancestors", d.frameAncestors)])
        ++ (if d.upgradeInsecureRequests then ["upgrade-insecure-requests"] else []) := by
  unfold cspDirectiveStrings
  simp only [filterMap_cons_toList, List.filterMap_nil, toList_map_opt,
    List.append_assoc, List.nil_append, List.append_nil]
  rfl

/-- A configuration whose CSP directive map contains only a
`defaultSrc` entry holding the quoted self keyword. -/
def onlyDefaultSrcConfig : SecurityConfig :=
  { defaultSecurityConfig with
      csp := { enabled := true, directives := { defaultSrc := some ["\x27self\x27"] } } }

/-- C3: for every configuration with `csp.enabled` true, the emitted
`Content-Security-Policy` value is the `; `-joined rendering of exactly
the directives present in the configured map, each as
`<kebab-case-name> <space-joined tokens>`, in the fixed declaration
order, with `upgradeInsecureRequests` (when true) contributing the bare
`upgrade-insecure-requests` directive and absent directives omitted
entirely; a map containing only a `defaultSrc` entry holding the quoted
self keyword yields exactly the single default-src directive. -/
theorem securityHeaders_csp_emission (c : SecurityConfig) (req res : Headers)
    (hcsp : c.csp.enabled = true) :
    emittedValue ((securityHeadersMiddleware c req res).2) "Content-Security-Policy"
      = some (String.intercalate "; "
          ((List.filterMap
              (fun nd => Option.map (fun ts => nd.1 ++ " " ++ String.intercalate " " ts) nd.2)
              [("default-src", c.csp.directives.defaultSrc),
               ("script-src", c.csp.directives.scriptSrc),
               ("style-src", c.csp.directives.styleSrc),
               ("img-src", c.csp.directives.imgSrc),
               ("font-src", c.csp.directives.fontSrc),
               ("connect-src", c.csp.directives.connectSrc),
               ("frame-src", c.csp.directives.frameSrc),
               ("object-src", c.csp.directives.objectSrc),
               ("base-uri", c.csp.directives.baseUri),
               ("form-action", c.csp.directives.formAction),
               ("frame-ancestors", c.csp.directives.frameAncestors)])
            ++ (if c.csp.directives.upgradeInsecureRequests then
                  ["upgrade-insecure-requests"] else [])))
    ∧ emittedValue ((securityHeadersMiddleware onlyDefaultSrcConfig [] []).2)
        "Content-Security-Policy" = some "default-src \x27self\x27" := by
  constructor
  · simp only [securityHeadersMiddleware, securityHeadersEffects, preEffects,
      List.append_assoc, emittedValue_append]
    rw [hstsEffects_ev_ne c (by decide), cspEffects_ev_self,
      xfoEffects_ev_ne c (by decide), xctoEffects_ev_ne c (by decide),
      xxpEffects_ev_ne c (by decide), rpEffects_ev_ne c (by decide),
      ppEffects_ev_ne c (by decide), coepEffects_ev_ne c (by decide),
      coopEffects_ev_ne c (by decide), corpEffects_ev_ne c (by decide),
      emittedValue_callNext]
    simp [Option.none_or, Option.or_none, hcsp, cspHeaderValue,
      cspDirectiveStrings_spec]
  · decide

/-- C3 witness: the CSP emission theorem applied at a concrete
configuration with `csp.enabled` true. -/
theorem securityHeaders_csp_emission_witness :
    onlyDefaultSrcConfig.csp.enabled = true
    ∧ emittedValue ((securityHeadersMiddleware onlyDefaultSrcConfig [] []).2)
        "Content-Security-Policy" = some "default-src \x27self\x27" :=
  ⟨rfl, (securityHeaders_csp_emission onlyDefaultSrcConfig [] [] rfl).2⟩

/-- C1: `securityHeaders` merges the caller-supplied options over the
defaults field-by-field: the empty options object resolves to the
fully-defaulted configuration; every omitted top-level field resolves to
its default block; every sub-field of the nested `hsts`, `csp` and
`crossOrigin` objects is resolved from its own option path alone —
omitted sub-fields take their defaults, supplied sub-fields take the
supplied value, independently of sibling sub-fields; and the
`csp.directives` and `permissionsPolicy` maps, when supplied, fully
replace the defaults with no partial merge of their contents. -/
theorem securityHeaders_merge_spec :
    securityHeadersConfig {} = defaultSecurityConfig
    ∧ (∀ o : SecurityHeadersOptions, o.hsts = none →
        (securityHeadersConfig o).hsts = defaultSecurityConfig.hsts)
    ∧ (∀ o : SecurityHeadersOptions, o.csp = none →
        (securityHeadersConfig o).csp = defaultSecurityConfig.csp)
    ∧ (∀ o : SecurityHeadersOptions, o.xFrameOptions = none →
        (securityHeadersConfig o).xFrameOptions = defaultSecurityConfig.xFrameOptions)
    ∧ (∀ o : SecurityHeadersOptions, o.xContentTypeOptions = none →
        (securityHeadersConfig o).xContentTypeOptions
          = defaultSecurityConfig.xContentTypeOptions)
    ∧ (∀ o : SecurityHeadersOptions, o.xXssProtection = none →
        (securityHeadersConfig o).xXssProtection = defaultSecurityConfig.xXssProtection)
    ∧ (∀ o : SecurityHeadersOptions, o.referrerPolicy = none →
        (securityHeadersConfig o).referrerPolicy = defaultSecurityConfig.referrerPolicy)
    ∧ (∀ o : SecurityHeadersOptions, o.permissionsPolicy = none →
        (securityHeadersConfig o).permissionsPolicy
          = defaultSecurityConfig.permissionsPolicy)
    ∧ (∀ o : SecurityHeadersOptions, o.crossOrigin = none →
        (securityHeadersConfig o).crossOrigin = defaultSecurityConfig.crossOrigin)
    ∧ (∀ o : SecurityHeadersOptions, o.cacheControl = none →
        (securityHeadersConfig o).cacheControl = defaultSecurityConfig.cacheControl)
    ∧ (∀ (o : SecurityHeadersOptions) (h : HstsOptions), o.hsts = some h →
        h.enabled = none →
        (securityHeadersConfig o).hsts.enabled = defaultSecurityConfig.hsts.enabled)
    ∧ (∀ (o : SecurityHeadersOptions) (h : HstsOptions) (b : Bool), o.hsts = some h →
        h.enabled = some b → (securityHeadersConfig o).hsts.enabled = b)
    ∧ (∀ (o : SecurityHeadersOptions) (h : HstsOptions), o.hsts = some h →
        h.maxAge = none →
        (securityHeadersConfig o).hsts.maxAge = defaultSecurityConfig.hsts.maxAge)
    ∧ (∀ (o : SecurityHeadersOptions) (h : HstsOptions) (a : Nat), o.hsts = some h →
        h.maxAge = some a → (securityHeadersConfig o).hsts.maxAge = a)
    ∧ (∀ (o : SecurityHeadersOptions) (h : HstsOptions), o.hsts = some h →
        h.includeSubDomains = none →
        (securityHeadersConfig o).hsts.includeSubDomains
          = defaultSecurityConfig.hsts.includeSubDomains)
    ∧ (∀ (o : SecurityHeadersOptions) (h : HstsOptions) (b : Bool), o.hsts = some h →
        h.includeSubDomains = some b →
        (securityHeadersConfig o).hsts.includeSubDomains = b)
    ∧ (∀ (o : SecurityHeadersOptions) (h : HstsOptions), o.hsts = some h →
        h.preload = none →
        (securityHeadersConfig o).hsts.preload = defaultSecurityConfig.hsts.preload)
    ∧ (∀ (o : SecurityHeadersOptions) (h : HstsOptions) (b : Bool), o.hsts = some h →
        h.preload = some b → (securityHeadersConfig o).hsts.preload = b)
    ∧ (∀ (o : SecurityHeadersOptions) (k : CspOptions), o.csp = some k →
        k.enabled = none →
        (securityHeadersConfig o).csp.enabled = defaultSecurityConfig.csp.enabled)
    ∧ (∀ (o : SecurityHeadersOptions) (k : CspOptions) (b : Bool), o.csp = some k →
        k.enabled = some b → (securityHeadersConfig o).csp.enabled = b)
    ∧ (∀ (o : SecurityHeadersOptions) (k : CspOptions), o.csp = some k →
        k.directives = none →
        (securityHeadersConfig o).csp.directives = defaultSecurityConfig.csp.directives)
    ∧ (∀ (o : SecurityHeadersOptions) (k : CspOptions) (dd : CspDirectives),
        o.csp = some k → k.directives = some dd →
        (securityHeadersConfig o).csp.directives = dd)
    ∧ (∀ (o : SecurityHeadersOptions) (co : CrossOriginOptions), o.crossOrigin = some co →
        co.embedderPolicy = none →
        (securityHeadersConfig o).crossOrigin.embedderPolicy
          = defaultSecurityConfig.crossOrigin.embedderPolicy)
    ∧ (∀ (o : SecurityHeadersOptions) (co : CrossOriginOptions) (s : String),
        o.crossOrigin = some co → co.embedderPolicy = some s →
        (securityHeadersConfig o).crossOrigin.embedderPolicy = s)
    ∧ (∀ (o : SecurityHeadersOptions) (co : CrossOriginOptions), o.crossOrigin = some co →
        co.openerPolicy = none →
        (securityHeadersConfig o).crossOrigin.openerPolicy
          = defaultSecurityConfig.crossOrigin.openerPolicy)
    ∧ (∀ (o : SecurityHeadersOptions) (co : CrossOriginOptions) (s : String),
        o.crossOrigin = some co → co.openerPolicy = some s →
        (securityHeadersConfig o).crossOrigin.openerPolicy = s)
    ∧ (∀ (o : SecurityHeadersOptions) (co : CrossOriginOptions), o.crossOrigin = some co →
        co.resourcePolicy = none →
        (securityHeadersConfig o).crossOrigin.resourcePolicy
          = defaultSecurityConfig.crossOrigin.resourcePolicy)
    ∧ (∀ (o : SecurityHeadersOptions) (co : CrossOriginOptions) (s : String),
        o.crossOrigin = some co → co.resourcePolicy = some s →
        (securityHeadersConfig o).crossOrigin.resourcePolicy = s)
    ∧ (∀ (o : SecurityHeadersOptions) (s : String), o.xFrameOptions = some s →
        (securityHeadersConfig o).xFrameOptions = s)
    ∧ (∀ (o : SecurityHeadersOptions) (s : String), o.xContentTypeOptions = some s →
        (securityHeadersConfig o).xContentTypeOptions = s)
    ∧ (∀ (o : SecurityHeadersOptions) (s : String), o.xXssProtection = some s →
        (securityHeadersConfig o).xXssProtection = s)
    ∧ (∀ (o : SecurityHeadersOptions) (s : String), o.referrerPolicy = some s →
        (securityHeadersConfig o).referrerPolicy = s)
    ∧ (∀ (o : SecurityHeadersOptions) (s : String), o.cacheControl = some s →
        (securityHeadersConfig o).cacheControl = s)
    ∧ (∀ (o : SecurityHeadersOptions) (pp : List (String × List String)),
        o.permissionsPolicy = some pp →
        (securityHeadersConfig o).permissionsPolicy = pp) := by
  refine ⟨rfl, ?_, ?_, ?_, ?_, ?_, ?_, ?_, ?_, ?_, ?_, ?_, ?_, ?_, ?_, ?_, ?_, ?_,
    ?_, ?_, ?_, ?_, ?_, ?_, ?_, ?_, ?_, ?_, ?_, ?_, ?_, ?_, ?_, ?_⟩
  all_goals
    first
      | (intro o h b ho hh
         simp [securityHeadersConfig, defaultSecurityConfig, ho, hh])
      | (intro o h ho hh
         simp [securityHeadersConfig, defaultSecurityConfig, ho, hh])
      | (intro o s hs
         simp [securityHeadersConfig, defaultSecurityConfig, hs])
      | (intro o ho
         simp [securityHeadersConfig, defaultSecurityConfig, ho])

/-- Options supplying the nested blocks but none of their sub-fields. -/
def oPartial : SecurityHeadersOptions :=
  { hsts := some {}, csp := some {}, crossOrigin := some {} }

/-- Options supplying every field and sub-field. -/
def oFull : SecurityHeadersOptions where
  hsts := some
    { enabled := some false, maxAge := some 86400,
      includeSubDomains := some false, preload := some true }
  csp := some
    { enabled := some false, directives := some { defaultSrc := some ["\x27self\x27"] } }
  xFrameOptions := some "SAMEORIGIN"
  xContentTypeOptions := some "nosniff"
  xXssProtection := some "0"
  referrerPolicy := some "no-referrer"
  permissionsPolicy := some [("camera", [])]
  crossOrigin := some
    { embedderPolicy := some "unsafe-none", openerPolicy := some "unsafe-none",
      resourcePolicy := some "cross-origin" }
  cacheControl := some "no-store"

/-- C1 witness: each implication of the merge theorem instantiated at a
concrete options object satisfying its hypotheses. -/
theorem securityHeaders_merge_spec_witness :
    (securityHeadersConfig {}).hsts = defaultSecurityConfig.hsts
    ∧ (securityHeadersConfig {}).csp = defaultSecurityConfig.csp
    ∧ (securityHeadersConfig {}).xFrameOptions = defaultSecurityConfig.xFrameOptions
    ∧ (securityHeadersConfig {}).xContentTypeOptions
        = defaultSecurityConfig.xContentTypeOptions
    ∧ (securityHeadersConfig {}).xXssProtection = defaultSecurityConfig.xXssProtection
    ∧ (securityHeadersConfig {}).referrerPolicy = defaultSecurityConfig.referrerPolicy
    ∧ (securityHeadersConfig {}).permissionsPolicy
        = defaultSecurityConfig.permissionsPolicy
    ∧ (securityHeadersConfig {}).crossOrigin = defaultSecurityConfig.crossOrigin
    ∧ (securityHeadersConfig {}).cacheControl = defaultSecurityConfig.cacheControl
    ∧ (securityHeadersConfig oPartial).hsts.enabled = defaultSecurityConfig.hsts.enabled
    ∧ (securityHeadersConfig oFull).hsts.enabled = false
    ∧ (securityHeadersConfig oPartial).hsts.maxAge = defaultSecurityConfig.hsts.maxAge
    ∧ (securityHeadersConfig oFull).hsts.maxAge = 86400
    ∧ (securityHeadersConfig oPartial).hsts.includeSubDomains
        = defaultSecurityConfig.hsts.includeSubDomains
    ∧ (securityHeadersConfig oFull).hsts.includeSubDomains = false
    ∧ (securityHeadersConfig oPartial).hsts.preload = defaultSecurityConfig.hsts.preload
    ∧ (securityHeadersConfig oFull).hsts.preload = true
    ∧ (securityHeadersConfig oPartial).csp.enabled = defaultSecurityConfig.csp.enabled
    ∧ (securityHeadersConfig oFull).csp.enabled = false
    ∧ (securityHeadersConfig oPartial).csp.directives
        = defaultSecurityConfig.csp.directives
    ∧ (securityHeadersConfig oFull).csp.directives
        = { defaultSrc := some ["\x27self\x27"] }
    ∧ (securityHeadersConfig oPartial).crossOrigin.embedderPolicy
        = defaultSecurityConfig.crossOrigin.embedderPolicy
    ∧ (securityHeadersConfig oFull).crossOrigin.embedderPolicy = "unsafe-none"
    ∧ (securityHeadersConfig oPartial).crossOrigin.openerPolicy
        = defaultSecurityConfig.crossOrigin.openerPolicy
    ∧ (securityHeadersConfig oFull).crossOrigin.openerPolicy = "unsafe-none"
    ∧ (securityHeadersConfig oPartial).crossOrigin.resourcePolicy
        = defaultSecurityConfig.crossOrigin.resourcePolicy
    ∧ (securityHeadersConfig oFull).crossOrigin.resourcePolicy = "cross-origin"
    ∧ (securityHeadersConfig oFull).xFrameOptions = "SAMEORIGIN"
    ∧ (securityHeadersConfig oFull).xContentTypeOptions = "nosniff"
    ∧ (securityHeadersConfig oFull).xXssProtection = "0"
    ∧ (securityHeadersConfig oFull).referrerPolicy = "no-referrer"
    ∧ (securityHeadersConfig oFull).cacheControl = "no-store"
    ∧ (securityHeadersConfig oFull).permissionsPolicy = [("camera", [])] := by
  obtain ⟨-, h2, h3, h4, h5, h6, h7, h8, h9, h10, h11, h12, h13, h14, h15, h16,
    h17, h18, h19, h20, h21, h22, h23, h24, h25, h26, h27, h28, h29, h30, h31,
    h32, h33, h34⟩ := securityHeaders_merge_spec
  exact ⟨h2 {} rfl, h3 {} rfl, h4 {} rfl, h5 {} rfl, h6 {} rfl, h7 {} rfl,
    h8 {} rfl, h9 {} rfl, h10 {} rfl,
    h11 oPartial _ rfl rfl, h12 oFull _ false rfl rfl,
    h13 oPartial _ rfl rfl, h14 oFull _ 86400 rfl rfl,
    h15 oPartial _ rfl rfl, h16 oFull _ false rfl rfl,
    h17 oPartial _ rfl rfl, h18 oFull _ true rfl rfl,
    h19 oPartial _ rfl rfl, h20 oFull _ false rfl rfl,
    h21 oPartial _ rfl rfl, h22 oFull _ _ rfl rfl,
    h23 oPartial _ rfl rfl, h24 oFull _ _ rfl rfl,
    h25 oPartial _ rfl rfl, h26 oFull _ _ rfl rfl,
    h27 oPartial _ rfl rfl, h28 oFull _ _ rfl rfl,
    h29 oFull _ rfl, h30 oFull _ rfl, h31 oFull _ rfl, h32 oFull _ rfl,
    h33 oFull _ rfl, h34 oFull _ rfl⟩

/-!
Emission lemmas shared by the adapter-comparison development.
-/

theorem securityHeadersEffects_ev_sts (c : SecurityConfig) (ct : String) :
    emittedValue (securityHeadersEffects c ct) "Strict-Transport-Security"
      = if c.hsts.enabled then some (hstsHeaderValue c.hsts) else none := by
  simp only [securityHeadersEffects, preEffects, List.append_assoc, emittedValue_append]
  rw [hstsEffects_ev_self, cspEffects_ev_ne c (by decide),
    xfoEffects_ev_ne c (by decide), xctoEffects_ev_ne c (by decide),
    xxpEffects_ev_ne c (by decide), rpEffects_ev_ne c (by decide),
    ppEffects_ev_ne c (by decide), coepEffects_ev_ne c (by decide),
    coopEffects_ev_ne c (by decide), corpEffects_ev_ne c (by decide),
    emittedValue_cacheEffects_ne (by decide) (by decide) (by decide),
    emittedValue_callNext]
  cases c.hsts.enabled <;> simp [Option.or]

theorem securityHeadersEffects_ev_xfo (c : SecurityConfig) (ct : String) :
    emittedValue (securityHeadersEffects c ct) "X-Frame-Options"
      = if c.xFrameOptions ≠ "" then some c.xFrameOptions else none := by
  simp only [securityHeadersEffects, preEffects, List.append_assoc, emittedValue_append]
  rw [hstsEffects_ev_ne c (by decide), cspEffects_ev_ne c (by decide),
    xfoEffects_ev_self, xctoEffects_ev_ne c (by decide),
    xxpEffects_ev_ne c (by decide), rpEffects_ev_ne c (by decide),
    ppEffects_ev_ne c (by decide), coepEffects_ev_ne c (by decide),
    coopEffects_ev_ne c (by decide), corpEffects_ev_ne c (by decide),
    emittedValue_cacheEffects_ne (by decide) (by decide) (by decide),
    emittedValue_callNext]
  by_cases hx : c.xFrameOptions = "" <;> simp [hx, Option.or]

theorem securityHeadersEffects_ev_xcto (c : SecurityConfig) (ct : String) :
    emittedValue (securityHeadersEffects c ct) "X-Content-Type-Options"
      = if c.xContentTypeOptions ≠ "" then some c.xContentTypeOptions else none := by
  simp only [securityHeadersEffects, preEffects, List.append_assoc, emittedValue_append]
  rw [hstsEffects_ev_ne c (by decide), cspEffects_ev_ne c (by decide),
    xfoEffects_ev_ne c (by decide), xctoEffects_ev_self,
    xxpEffects_ev_ne c (by decide), rpEffects_ev_ne c (by decide),
    ppEffects_ev_ne c (by decide), coepEffects_ev_ne c (by decide),
    coopEffects_ev_ne c (by decide), corpEffects_ev_ne c (by decide),
    emittedValue_cacheEffects_ne (by decide) (by decide) (by decide),
    emittedValue_callNext]
  by_cases hx : c.xContentTypeOptions = "" <;> simp [hx, Option.or]

theorem securityHeadersEffects_ev_rp (c : SecurityConfig) (ct : String) :
    emittedValue (securityHeadersEffects c ct) "Referrer-Policy"
      = if c.referrerPolicy ≠ "" then some c.referrerPolicy else none := by
  simp only [securityHeadersEffects, preEffects, List.append_assoc, emittedValue_append]
  rw [hstsEffects_ev_ne c (by decide), cspEffects_ev_ne c (by decide),
    xfoEffects_ev_ne c (by decide), xctoEffects_ev_ne c (by decide),
    xxpEffects_ev_ne c (by decide), rpEffects_ev_self,
    ppEffects_ev_ne c (by decide), coepEffects_ev_ne c (by decide),
    coopEffects_ev_ne c (by decide), corpEffects_ev_ne c (by decide),
    emittedValue_cacheEffects_ne (by decide) (by decide) (by decide),
    emittedValue_callNext]
  by_cases hx : c.referrerPolicy = "" <;> simp [hx, Option.or]

theorem honoEffects_ev_sts (c : HonoConfig) :
    emittedValue (securityHeadersHonoEffects c) "Strict-Transport-Security"
      = if c.hsts.enabled then some (hstsHeaderValue c.hsts) else none := by
  cases he : c.hsts.enabled <;>
    simp [securityHeadersHonoEffects, emittedValue_append, emittedValue, he,
      hstsHeaderValue]

theorem honoEffects_ev_xfo (c : HonoConfig) :
    emittedValue (securityHeadersHonoEffects c) "X-Frame-Options"
      = some c.xFrameOptions := by
  simp only [securityHeadersHonoEffects, emittedValue, emittedValue_append]
  rw [emittedValue_ite_ne _ _ (by decide)]
  simp [emittedValue, Option.or]

theorem honoEffects_ev_xcto (c : HonoConfig) :
    emittedValue (securityHeadersHonoEffects c) "X-Content-Type-Options"
      = some c.xContentTypeOptions := by
  simp only [securityHeadersHonoEffects, emittedValue, emittedValue_append]
  rw [emittedValue_ite_ne _ _ (by decide)]
  simp [emittedValue, Option.or]

theorem honoEffects_ev_rp (c : HonoConfig) :
    emittedValue (securityHeadersHonoEffects c) "Referrer-Policy"
      = some c.referrerPolicy := by
  simp only [securityHeadersHonoEffects, emittedValue, emittedValue_append]
  rw [emittedValue_ite_ne _ _ (by decide)]
  simp [emittedValue, Option.or]

/-- C9 counterexample: at default options on an empty request/response
state, the header set emitted by the Hono adapter differs from the one
emitted by the Express middleware — in particular the Express middleware emits
`Content-Security-Policy` and the adapter does not, and the resulting
response header maps differ. -/
theorem securityHeadersHono_differs_from_express :
    (emittedValue ((securityHeaders {} [] []).2) "Content-Security-Policy").isSome = true
    ∧ emittedValue ((securityHeadersHono {} []).2) "Content-Security-Policy" = none
    ∧ ¬((securityHeadersHono {} []).1 = (securityHeaders {} [] []).1) := by
  refine ⟨by decide, by decide, by decide⟩

/-- C9 (amended): the Hono adapter emits only the four headers
`Strict-Transport-Security`, `X-Frame-Options`,
`X-Content-Type-Options` and `Referrer-Policy`; on those headers its
emitted values agree with the Express middleware built from the same
options (whenever the three scalar values are non-empty, which the
Express version requires for emission); the remaining Express headers
are not implemented by the adapter. -/
theorem securityHeadersHono_subset_agreement (o : SecurityHeadersOptions)
    (req res : Headers)
    (h1 : (securityHeadersConfig o).xFrameOptions ≠ "")
    (h2 : (securityHeadersConfig o).xContentTypeOptions ≠ "")
    (h3 : (securityHeadersConfig o).referrerPolicy ≠ "") :
    emittedValue ((securityHeadersHono o res).2) "Strict-Transport-Security"
      = emittedValue ((securityHeaders o req res).2) "Strict-Transport-Security"
    ∧ emittedValue ((securityHeadersHono o res).2) "X-Frame-Options"
      = emittedValue ((securityHeaders o req res).2) "X-Frame-Options"
    ∧ emittedValue ((securityHeadersHono o res).2) "X-Content-Type-Options"
      = emittedValue ((securityHeaders o req res).2) "X-Content-Type-Options"
    ∧ emittedValue ((securityHeadersHono o res).2) "Referrer-Policy"
      = emittedValue ((securityHeaders o req res).2) "Referrer-Policy"
    ∧ (∀ n : String, (emittedValue ((securityHeadersHono o res).2) n).isSome →
        n ∈ ["Strict-Transport-Security", "X-Frame-Options",
             "X-Content-Type-Options", "Referrer-Policy"]) := by
  have hexp : (securityHeaders o req res).2
      = securityHeadersEffects (securityHeadersConfig o)
          (responseContentType (securityHeadersConfig o) res) := rfl
  have hhono : (securityHeadersHono o res).2
      = securityHeadersHonoEffects (buildConfig o) := rfl
  have hsame : (buildConfig o).hsts = (securityHeadersConfig o).hsts := rfl
  refine ⟨?_, ?_, ?_, ?_, ?_⟩
  · rw [hexp, hhono, honoEffects_ev_sts, securityHeadersEffects_ev_sts, hsame]
  · rw [hexp, hhono, honoEffects_ev_xfo, securityHeadersEffects_ev_xfo,
      if_pos h1]
    rfl
  · rw [hexp, hhono, honoEffects_ev_xcto, securityHeadersEffects_ev_xcto,
      if_pos h2]
    rfl
  · rw [hexp, hhono, honoEffects_ev_rp, securityHeadersEffects_ev_rp,
      if_pos h3]
    rfl
  · intro n hn
    have hmem := mem_rawNames_of_emittedValue_isSome hn
    rw [hhono] at hmem
    simp only [securityHeadersHonoEffects, rawNames, rawNames_append,
      List.mem_append] at hmem
    rcases hmem with hl | hr
    · have hsub := (rawNames_ite_sublist ((buildConfig o).hsts.enabled = true) _ _).subset hl
      simp only [List.mem_singleton] at hsub
      simp [hsub]
    · simp only [rawNames, List.mem_cons, List.not_mem_nil] at hr
      rcases hr with rfl | rfl | rfl | hfalse
      · simp
      · simp
      · simp
      · exact absurd hfalse (by simp)

/-- C9 witness: the adapter subset-agreement theorem applied at the
default options on empty request/response states. -/
theorem securityHeadersHono_subset_agreement_witness :
    (securityHeadersConfig {}).xFrameOptions ≠ ""
    ∧ (securityHeadersConfig {}).xContentTypeOptions ≠ ""
    ∧ (securityHeadersConfig {}).referrerPolicy ≠ ""
    ∧ (emittedValue ((securityHeadersHono {} []).2) "Strict-Transport-Security"
        = emittedValue ((securityHeaders {} [] []).2) "Strict-Transport-Security"
      ∧ emittedValue ((securityHeadersHono {} []).2) "X-Frame-Options"
        = emittedValue ((securityHeaders {} [] []).2) "X-Frame-Options"
      ∧ emittedValue ((securityHeadersHono {} []).2) "X-Content-Type-Options"
        = emittedValue ((securityHeaders {} [] []).2) "X-Content-Type-Options"
      ∧ emittedValue ((securityHeadersHono {} []).2) "Referrer-Policy"
        = emittedValue ((securityHeaders {} [] []).2) "Referrer-Policy"
      ∧ (∀ n : String, (emittedValue ((securityHeadersHono {} []).2) n).isSome →
          n ∈ ["Strict-Transport-Security", "X-Frame-Options",
               "X-Content-Type-Options", "Referrer-Policy"])) :=
  ⟨by decide, by decide, by decide,
    securityHeadersHono_subset_agreement {} [] [] (by decide) (by decide) (by decide)⟩

end SecureStack
